import Mathlib

/-!
Verification of the App-Memory-Management data-acquisition-and-decision
pipeline, shallowly embedded from the Python sources.

Modules embedded:
  * `src/config.py`                 — configuration constants
  * `src/modules/memory_reader.py`  — memory snapshot parsing / fallback
  * `src/modules/process_reader.py` — process inventory merge
  * `src/modules/smart_manager.py`  — decision engine
  * `src/app.py`                    — background-fetch cache slot

Numeric conventions: Python ints become `Int` (or `Nat` where the source
can only produce non-negative values, e.g. regex-extracted digit strings),
Python floats become `ℚ`, and Python's builtin banker's rounding `round`
is modelled exactly on `ℚ` by `python_round`.  Device I/O (`run_adb`) is
external -- the regex match results that the parsing code branches on are
the embedding's inputs.
-/

/- ── config.py ─────────────────────────────────────────────────────── -/

def REFRESH_INTERVAL_MS : ℕ := 30000

def ADB_TIMEOUT_SECONDS : ℚ := 10

def CACHE_TTL_SECONDS : ℚ := 25

def THRESHOLD_CRITICAL : ℚ := 80

def THRESHOLD_WARNING : ℚ := 60

/-- Embedding of `OOM_PRIORITY` from `config.py`: short code ↦ (label, kill-score). -/
def OOM_PRIORITY : List (String × String × ℕ) :=
  [("fore", ("Foreground", 0)),
   ("fg", ("Foreground", 0)),
   ("vis", ("Visible", 1)),
   ("percep", ("Perceptible", 2)),
   ("prev", ("Previous", 3)),
   ("bak", ("Background", 4)),
   ("cch", ("Cached", 5)),
   ("svc", ("Service", 2)),
   ("svcb", ("Service-B", 3)),
   ("psvc", ("Persist-Svc", 0)),
   ("home", ("Home", 1)),
   ("pers", ("Persistent", 0)),
   ("sys", ("System", 0))]

def OOM_DEFAULT_LABEL : String := "Unknown"

def OOM_DEFAULT_SCORE : ℕ := 3

/-- Embedding of `KILL_BLOCKLIST` from `config.py` (a Python set; only membership is used). -/
def KILL_BLOCKLIST : List String :=
  ["system",
   "system_server",
   "com.android.systemui",
   "com.android.launcher3",
   "com.google.android.launcher",
   "com.android.phone",
   "com.android.dialer",
   "com.android.providers.telephony",
   "com.android.providers.contacts",
   "com.android.settings",
   "com.android.inputmethod.latin",
   "android",
   "android.process.acore",
   "android.process.media"]

def MIN_KILL_SCORE : ℕ := 3

/- ── Data model (memory_reader.MemoryInfo, process_reader.ProcessInfo) ── -/

/-- Embedding of `MemoryInfo` dataclass from `memory_reader.py`.  Fields are Python
ints; `used_kb` can go negative on the `/proc/meminfo` fallback path
(`used = total - free`), so all KB fields are `Int`.  The capture
timestamp is opaque to all logic and modelled as a rational clock value. -/
structure MemoryInfo where
  total_kb : Int := 0
  used_kb : Int := 0
  free_kb : Int := 0
  lost_kb : Int := 0
  status : String := "normal"
  timestamp : ℚ := 0
deriving DecidableEq

/-- Embedding of `ProcessInfo` dataclass from `process_reader.py`.  `pss_kb` comes from
a digits-only regex group, hence `ℕ`. -/
structure ProcessInfo where
  pid : ℕ
  package_name : String
  pss_kb : ℕ
  oom_adj : String
  oom_label : String
  kill_score : ℕ
  user : String := ""
deriving DecidableEq

/- ── Python's builtin round (banker's rounding, round-half-to-even) ── -/

/-- Python's builtin `round(q)` on an exact rational: nearest integer,
ties to the even neighbour. -/
def python_round (q : ℚ) : ℤ :=
  if q - ⌊q⌋ < 1 / 2 then ⌊q⌋
  else if 1 / 2 < q - ⌊q⌋ then ⌊q⌋ + 1
  else if Even ⌊q⌋ then ⌊q⌋ else ⌊q⌋ + 1

/-- Python's `round(q, 1)`: round to one decimal digit. -/
def round1 (q : ℚ) : ℚ :=
  ((python_round (q * 10) : ℤ) : ℚ) / 10

theorem python_round_le (q : ℚ) : (python_round q : ℚ) ≤ q + 1 / 2 := by
  have h1 : ((⌊q⌋ : ℤ) : ℚ) ≤ q := Int.floor_le q
  have h2 : q < ((⌊q⌋ : ℤ) : ℚ) + 1 := Int.lt_floor_add_one q
  unfold python_round
  split_ifs <;> push_cast <;> linarith

theorem le_python_round (q : ℚ) : q - 1 / 2 ≤ (python_round q : ℚ) := by
  have h1 : ((⌊q⌋ : ℤ) : ℚ) ≤ q := Int.floor_le q
  have h2 : q < ((⌊q⌋ : ℤ) : ℚ) + 1 := Int.lt_floor_add_one q
  unfold python_round
  split_ifs <;> push_cast <;> linarith

theorem python_round_mono {x y : ℚ} (h : x ≤ y) :
    python_round x ≤ python_round y := by
  by_contra hcon
  push_neg at hcon
  have hstep : ((python_round y : ℤ) : ℚ) + 1 ≤ ((python_round x : ℤ) : ℚ) := by
    exact_mod_cast Int.add_one_le_iff.mpr hcon
  have hx := python_round_le x
  have hy := le_python_round y
  have hxy : x = y := le_antisymm h (by linarith)
  rw [hxy] at hcon
  exact lt_irrefl _ hcon

theorem round1_mono {x y : ℚ} (h : x ≤ y) : round1 x ≤ round1 y := by
  unfold round1
  have : python_round (x * 10) ≤ python_round (y * 10) :=
    python_round_mono (by linarith)
  have hc : ((python_round (x * 10) : ℤ) : ℚ) ≤ ((python_round (y * 10) : ℤ) : ℚ) := by
    exact_mod_cast this
  linarith

/-- Derived presentation property `ProcessInfo.pss_mb`:
`round(pss_kb / 1024, 1)`. -/
def ProcessInfo.pss_mb (p : ProcessInfo) : ℚ :=
  round1 ((p.pss_kb : ℚ) / 1024)

/- ── smart_manager.py — decision engine ───────────────────────────── -/

/-- Embedding of `calculate_usage_percent` from `smart_manager.py`:
RAM usage as a percentage; exactly `0` when `total_kb == 0`. -/
def calculate_usage_percent (memory : MemoryInfo) : ℚ :=
  if memory.total_kb = 0 then 0
  else ((memory.used_kb : ℚ) / (memory.total_kb : ℚ)) * 100

/-- The `f-string` fragment `f"{usage_pct:.1f}"` used in the
recommendation details (sign, integer digits, one decimal digit). -/
def format_1f (q : ℚ) : String :=
  let m : ℤ := python_round (q * 10)
  let a : ℕ := m.natAbs
  (if m < 0 then "-" else "") ++ toString (a / 10) ++ "." ++ toString (a % 10)

/-- Embedding of `get_system_recommendation` from `smart_manager.py`:
classify memory pressure into `(severity, title, detail)`. -/
def get_system_recommendation (usage_pct : ℚ) : String × String × String :=
  if THRESHOLD_CRITICAL ≤ usage_pct then
    ("critical",
     "High Memory Pressure",
     "RAM usage is at " ++ format_1f usage_pct ++ " %. " ++
       "Recommend killing low-priority background apps immediately " ++
       "to prevent system slowdown and app crashes.")
  else if THRESHOLD_WARNING ≤ usage_pct then
    ("warning",
     "Moderate Memory Usage",
     "RAM usage is at " ++ format_1f usage_pct ++ " %. " ++
       "Consider closing unused background apps to keep the device responsive.")
  else
    ("healthy",
     "Memory Healthy",
     "RAM usage is at " ++ format_1f usage_pct ++ " %. " ++
       "The device has adequate free memory. No action required.")

/-- Embedding of `score_process` from `smart_manager.py`. -/
def score_process (proc : ProcessInfo) : ℕ :=
  proc.kill_score

/-- The filter of the list comprehension inside `get_kill_candidates`:
`p.kill_score >= MIN_KILL_SCORE and p.package_name not in KILL_BLOCKLIST`. -/
def candidate_filter (p : ProcessInfo) : Bool :=
  decide (MIN_KILL_SCORE ≤ p.kill_score) && !(KILL_BLOCKLIST.contains p.package_name)

/-- The comparison realised by Python's stable
`list.sort(key=lambda p: p.pss_kb, reverse=True)`: `a` may come before
`b` iff `a.pss_kb >= b.pss_kb` (ties keep their original order). -/
def pss_desc (a b : ProcessInfo) : Bool :=
  decide (b.pss_kb ≤ a.pss_kb)

/-- Embedding of `get_kill_candidates` from `smart_manager.py`: filter then stable
sort by PSS descending (Python's sort is stable; `List.mergeSort` is the
stable sort of the Lean library). -/
def get_kill_candidates (processes : List ProcessInfo) (memory : MemoryInfo) :
    List ProcessInfo :=
  (processes.filter candidate_filter).mergeSort pss_desc

/-- Embedding of `estimate_freed_mb` from `smart_manager.py`:
`round(sum(p.pss_kb for p in candidates) / 1024, 1)`. -/
def estimate_freed_mb (candidates : List ProcessInfo) : ℚ :=
  round1 ((candidates.map fun p => (p.pss_kb : ℚ)).sum / 1024)

/- ── memory_reader.py — snapshot parsing and fallback ─────────────── -/

/-- Outcome of the five regex searches `get_system_memory` runs over the
raw `dumpsys meminfo` text (`None` = no match; a numeric match carries
the value after `_parse_kb`, which strips thousands separators). -/
structure DumpsysMatches where
  total_m : Option ℕ
  used_m : Option ℕ
  free_m : Option ℕ
  lost_m : Option ℕ
  status_m : Option String
deriving DecidableEq

/-- Outcome of the three regex searches `get_proc_meminfo` runs over the
raw `/proc/meminfo` text. -/
structure ProcMeminfoMatches where
  total_m : Option ℕ
  free_m : Option ℕ
  avail_m : Option ℕ
deriving DecidableEq

/-- Embedding of `get_proc_meminfo` from `memory_reader.py`: lightweight fallback;
`used` is computed as `total - free` (and can be negative), `lost` is 0,
status is `"normal"`, and every missing field defaults to 0. -/
def get_proc_meminfo (m : ProcMeminfoMatches) (now : ℚ) : MemoryInfo :=
  let total_kb : Int := match m.total_m with
    | some v => (v : Int)
    | none => 0
  let free_kb : Int := match m.avail_m with
    | some v => (v : Int)
    | none => match m.free_m with
      | some v => (v : Int)
      | none => 0
  let used_kb : Int := total_kb - free_kb
  { total_kb := total_kb
    used_kb := used_kb
    free_kb := free_kb
    lost_kb := 0
    status := "normal"
    timestamp := now }

/-- Embedding of `get_system_memory` from `memory_reader.py`: use the `dumpsys`
fields when total, used and free all matched, else fall back to
`get_proc_meminfo`. -/
def get_system_memory (d : DumpsysMatches) (p : ProcMeminfoMatches) (now : ℚ) :
    MemoryInfo :=
  match d.total_m, d.used_m, d.free_m with
  | some t, some u, some f =>
      { total_kb := (t : Int)
        used_kb := (u : Int)
        free_kb := (f : Int)
        lost_kb := match d.lost_m with
          | some l => (l : Int)
          | none => 0
        status := match d.status_m with
          | some s => s.toLower
          | none => "normal"
        timestamp := now }
  | _, _, _ => get_proc_meminfo p now

/- ── process_reader.py — inventory merge ──────────────────────────── -/

/-- Embedding of `_oom_info` from `process_reader.py`: `(label, score)` for an OOM
code, with the configured default for unrecognized codes. -/
def _oom_info (code : String) : String × ℕ :=
  match OOM_PRIORITY.lookup code with
  | some entry => entry
  | none => (OOM_DEFAULT_LABEL, OOM_DEFAULT_SCORE)

/-- Embedding of `get_running_processes` from `process_reader.py`, taking the two
already-parsed dictionaries as inputs: `pss_map` maps a package to
`(pss_kb, pid)` (insertion-ordered, first occurrence kept) and `oom_map`
maps a package to `(oom_code, pid, user)`.  Packages missing from
`oom_map` default to the `"bak"` code; the per-package pid prefers the
activity dump's pid unless it is the falsy `0`.  The result is sorted by
PSS descending (Python's stable sort). -/
def get_running_processes (pss_map : List (String × ℕ × ℕ))
    (oom_map : List (String × String × ℕ × String)) : List ProcessInfo :=
  let processes := pss_map.map fun entry =>
    let package := entry.1
    let pss_kb := entry.2.1
    let pid_pss := entry.2.2
    match oom_map.lookup package with
    | none =>
        let li := _oom_info ("bak")
        { pid := pid_pss
          package_name := package
          pss_kb := pss_kb
          oom_adj := "bak"
          oom_label := li.1
          kill_score := li.2
          user := "" }
    | some (oom_code, pid_oom, user) =>
        let li := _oom_info oom_code
        { pid := if pid_oom ≠ 0 then pid_oom else pid_pss
          package_name := package
          pss_kb := pss_kb
          oom_adj := oom_code
          oom_label := li.1
          kill_score := li.2
          user := user }
  processes.mergeSort pss_desc

/- ── app.py — background-fetch cache slot ─────────────────────────── -/

/-- The device-info dictionary returned by `adb_utils.get_device_info`
(string keys and values; its contents are opaque to the cache logic). -/
def DeviceInfo : Type := List (String × String)

/-- The value held in the module-level cache slot of `app.py`:
the `(memory, processes, device_info)` triple. -/
def LiveTriple : Type := MemoryInfo × List ProcessInfo × DeviceInfo

/-- The module-level mutable state of `app.py`'s fetch layer:
`_bg_live_data` (`None` until first success) and `_bg_live_time`
(epoch seconds of the last completed fetch, initially `0.0`). -/
structure CacheState where
  _bg_live_data : Option LiveTriple
  _bg_live_time : ℚ

/-- Embedding of `_bg_fetch_live` from `app.py`: the body of the worker thread.  The
whole fetch runs inside `try/except Exception: pass`, so a raising
Gateway or Parser call leaves the cache slot exactly as it was; on
success the triple and the completion time are stored together. -/
def _bg_fetch_live (fetched : Except String LiveTriple) (s : CacheState)
    (now : ℚ) : CacheState :=
  match fetched with
  | Except.ok triple => { _bg_live_data := some triple, _bg_live_time := now }
  | Except.error _ => s

/-- The `need_fetch` condition from `collect_live_data` in `app.py`:
`data is None or age > CACHE_TTL_SECONDS or force`. -/
def need_fetch (s : CacheState) (now : ℚ) (force : Bool) : Bool :=
  s._bg_live_data.isNone || decide (CACHE_TTL_SECONDS < now - s._bg_live_time) || force

/-- Embedding of `collect_live_data` starts a worker thread iff `need_fetch` holds and
no previous worker thread is still alive. -/
def starts_background_fetch (s : CacheState) (now : ℚ) (force : Bool)
    (thread_alive : Bool) : Bool :=
  need_fetch s now force && !thread_alive

/-- Embedding of `clear_live_cache` from `app.py`: reset `_bg_live_time` to `0.0`,
keep `_bg_live_data` for display. -/
def clear_live_cache (s : CacheState) : CacheState :=
  { _bg_live_data := s._bg_live_data, _bg_live_time := 0 }

/- ── Python-object-level model for the frame claim on
`get_kill_candidates` (C10).  A heap of list objects indexed by
address; the list comprehension allocates a fresh object and
`candidates.sort(...)` mutates only that fresh object. ─────────────── -/

/-- Statement-by-statement heap model of `get_kill_candidates`:
`heap` holds every Python list object, `a` is the address of the
argument list.  Returns the updated heap and the address of the
returned list. -/
def get_kill_candidates_heap (heap : List (List ProcessInfo)) (a : ℕ)
    (memory : MemoryInfo) : List (List ProcessInfo) × ℕ :=
  let processes := heap.getD a []
  let candidates := processes.filter candidate_filter
  let heap1 := heap ++ [candidates]
  let ca := heap1.length - 1
  let heap2 := heap1.set ca (candidates.mergeSort pss_desc)
  (heap2, ca)

/- ═══════════════════════════════ Claims ═══════════════════════════ -/

def snapshotC3 : MemoryInfo :=
  { total_kb := 4194304, used_kb := 3355443 }

theorem snapshotC3_usage :
    calculate_usage_percent snapshotC3 = 83886075 / 1048576 := by
  simp only [calculate_usage_percent, snapshotC3]
  norm_num

theorem snapshotC3_round :
    python_round (calculate_usage_percent snapshotC3 * 10) = 800 := by
  rw [snapshotC3_usage]
  unfold python_round
  have hfl : ⌊(83886075 : ℚ) / 1048576 * 10⌋ = 799 := by
    rw [Int.floor_eq_iff]
    constructor <;> push_cast <;> norm_num
  rw [hfl, if_neg (by push_cast; norm_num), if_pos (by push_cast; norm_num)]
  norm_num

theorem snapshotC3_fmt :
    format_1f (calculate_usage_percent snapshotC3) = "80.0" := by
  simp only [format_1f]
  rw [snapshotC3_round]
  norm_num
  rfl

theorem snapshotC3_severity :
    (get_system_recommendation (calculate_usage_percent snapshotC3)).1 = "warning" := by
  rw [snapshotC3_usage]
  simp only [get_system_recommendation]
  rw [if_neg (by norm_num [THRESHOLD_CRITICAL]), if_pos (by norm_num [THRESHOLD_WARNING])]

/-- C3 (counterexample): for the snapshot `{total_kb: 4194304,
used_kb: 3355443}` the classification severity is NOT `"critical"` —
the exact usage ratio is 83886075/1048576 ≈ 79.999995 %, strictly below
`THRESHOLD_CRITICAL = 80`, so the `>=` branch is not taken. -/
theorem usage_80_scenario_ce :
    (get_system_recommendation (calculate_usage_percent snapshotC3)).1 ≠ "critical" := by
  rw [snapshotC3_severity]
  decide

/-- C3 (amended): the usage ratio of that snapshot is exactly
83886075/1048576 (≈ 79.999995, displayed as "80.0" by the one-decimal
format), which is strictly below the critical threshold, and the
returned severity is `"warning"`. -/
theorem usage_80_scenario_amended :
    calculate_usage_percent snapshotC3 = 83886075 / 1048576
    ∧ calculate_usage_percent snapshotC3 < THRESHOLD_CRITICAL
    ∧ THRESHOLD_WARNING ≤ calculate_usage_percent snapshotC3
    ∧ format_1f (calculate_usage_percent snapshotC3) = "80.0"
    ∧ (get_system_recommendation (calculate_usage_percent snapshotC3)).1 = "warning" := by
  refine ⟨snapshotC3_usage, ?_, ?_, snapshotC3_fmt, snapshotC3_severity⟩
  · rw [snapshotC3_usage]
    norm_num [THRESHOLD_CRITICAL]
  · rw [snapshotC3_usage]
    norm_num [THRESHOLD_WARNING]

/-- C4: a snapshot with `total_kb == 0` has usage ratio exactly `0`
(`calculate_usage_percent` is a total function — never raises, never
divides by zero — and takes the guarded zero branch). -/
theorem usage_percent_zero_total (used free lost : Int) (st : String) (ts : ℚ) :
    calculate_usage_percent
      { total_kb := 0, used_kb := used, free_kb := free, lost_kb := lost,
        status := st, timestamp := ts } = 0 := by
  simp [calculate_usage_percent]

def snapshotOver : MemoryInfo :=
  { total_kb := 1048576, used_kb := 2097152 }

/-- C5 (counterexample): a snapshot that is valid in the data model's
sense (`total_kb > 0`, `used_kb >= 0`, both fields present) can still
have `used_kb > total_kb` (the source never enforces `used + free <=
total`), and then the usage ratio exceeds any `100 + ε` bound: with
`total_kb = 1048576` and `used_kb = 2097152` the ratio is exactly 200. -/
theorem usage_ratio_bound_ce :
    0 < snapshotOver.total_kb ∧ 0 ≤ snapshotOver.used_kb
    ∧ calculate_usage_percent snapshotOver = 200
    ∧ ¬ calculate_usage_percent snapshotOver ≤ 100 + 1 := by
  refine ⟨by norm_num [snapshotOver], by norm_num [snapshotOver], ?_, ?_⟩
  · simp only [calculate_usage_percent, snapshotOver]
    norm_num
  · simp only [calculate_usage_percent, snapshotOver]
    norm_num

/-- C5 (amended): for every snapshot with `total_kb > 0`,
`0 <= used_kb` and `used_kb <= total_kb`, the usage ratio lies in
`[0, 100]` (no ε needed over exact rationals); and
`get_system_recommendation` is total, always returning exactly one of
the three severities `"critical"`, `"warning"`, `"healthy"`. -/
theorem usage_ratio_bounds_and_classify_total (m : MemoryInfo)
    (htot : 0 < m.total_kb) (hused : 0 ≤ m.used_kb) (hle : m.used_kb ≤ m.total_kb) :
    (0 ≤ calculate_usage_percent m ∧ calculate_usage_percent m ≤ 100)
    ∧ ∀ pct : ℚ,
        (get_system_recommendation pct).1 = "critical"
        ∨ (get_system_recommendation pct).1 = "warning"
        ∨ (get_system_recommendation pct).1 = "healthy" := by
  constructor
  · have htotQ : (0 : ℚ) < (m.total_kb : ℚ) := by exact_mod_cast htot
    have husedQ : (0 : ℚ) ≤ (m.used_kb : ℚ) := by exact_mod_cast hused
    have hleQ : (m.used_kb : ℚ) ≤ (m.total_kb : ℚ) := by exact_mod_cast hle
    have hne : m.total_kb ≠ 0 := by omega
    simp only [calculate_usage_percent, if_neg hne]
    constructor
    · positivity
    · have hdiv : (m.used_kb : ℚ) / (m.total_kb : ℚ) ≤ 1 :=
        (div_le_one htotQ).mpr hleQ
      nlinarith
  · intro pct
    simp only [get_system_recommendation]
    split_ifs <;> simp

def snapshotHalf : MemoryInfo :=
  { total_kb := 4, used_kb := 1 }

/-- C5 (witness): the amended theorem applied to the concrete snapshot
`{total_kb: 4, used_kb: 1}` (usage 25 %), plus its classification
conjunct instantiated at 25. -/
theorem usage_ratio_bounds_witness :
    (0 ≤ calculate_usage_percent snapshotHalf
      ∧ calculate_usage_percent snapshotHalf ≤ 100)
    ∧ ((get_system_recommendation 25).1 = "critical"
        ∨ (get_system_recommendation 25).1 = "warning"
        ∨ (get_system_recommendation 25).1 = "healthy") :=
  ⟨(usage_ratio_bounds_and_classify_total snapshotHalf (by norm_num [snapshotHalf])
      (by norm_num [snapshotHalf]) (by norm_num [snapshotHalf])).1,
   (usage_ratio_bounds_and_classify_total snapshotHalf (by norm_num [snapshotHalf])
      (by norm_num [snapshotHalf]) (by norm_num [snapshotHalf])).2 25⟩

/-- C2 (counterexample): when every field of both dumps fails to match
(primary `dumpsys meminfo` and fallback `/proc/meminfo` alike), the
fetch does NOT surface an error — `get_system_memory` silently returns
the all-zero snapshot with status `"normal"`. -/
theorem get_system_memory_double_failure_ce :
    get_system_memory ⟨none, none, none, none, none⟩ ⟨none, none, none⟩ 0
      = { total_kb := 0, used_kb := 0, free_kb := 0, lost_kb := 0,
          status := "normal", timestamp := 0 } := by
  rfl

/-- C2 (amended): when the primary parse fails (total, used and free not
all matched), the result is exactly the fallback `get_proc_meminfo`
result; and when the fallback fields are all absent as well, the result
is the silently-zeroed snapshot (all KB fields `0`, status `"normal"`) —
no error is signalled. -/
theorem get_system_memory_fallback_policy (d : DumpsysMatches)
    (p : ProcMeminfoMatches) (now : ℚ)
    (hfail : d.total_m = none ∨ d.used_m = none ∨ d.free_m = none) :
    get_system_memory d p now = get_proc_meminfo p now
    ∧ (p.total_m = none → p.free_m = none → p.avail_m = none →
        get_system_memory d p now
          = { total_kb := 0, used_kb := 0, free_kb := 0, lost_kb := 0,
              status := "normal", timestamp := now }) := by
  obtain ⟨t, u, f, l, s⟩ := d
  have hmain : get_system_memory ⟨t, u, f, l, s⟩ p now = get_proc_meminfo p now := by
    cases t <;> cases u <;> cases f <;> simp_all [get_system_memory]
  refine ⟨hmain, fun h1 h2 h3 => ?_⟩
  obtain ⟨pt, pf, pa⟩ := p
  simp only at h1 h2 h3
  subst h1 h2 h3
  rw [hmain]
  rfl

/-- C2 (witness): the fallback-policy theorem applied to a run where the
primary parse found no `Total RAM:` line but the fallback found
`MemTotal` 100 and `MemFree` 40. -/
theorem get_system_memory_fallback_witness :
    get_system_memory ⟨none, some 7, some 2, none, none⟩ ⟨some 100, some 40, none⟩ 5
      = get_proc_meminfo ⟨some 100, some 40, none⟩ 5 :=
  (get_system_memory_fallback_policy ⟨none, some 7, some 2, none, none⟩
    ⟨some 100, some 40, none⟩ 5 (Or.inl rfl)).1

/-- C6: `estimate_freed_mb` is the one-decimal rounding of the summed
candidate PSS converted to MB, and it is monotonic — appending any
additional candidate never decreases the estimate. -/
theorem estimate_freed_mb_monotone (cs : List ProcessInfo) (p : ProcessInfo) :
    estimate_freed_mb cs = round1 ((cs.map fun q => ((q.pss_kb : ℚ))).sum / 1024)
    ∧ estimate_freed_mb cs ≤ estimate_freed_mb (cs ++ [p]) := by
  refine ⟨rfl, ?_⟩
  simp only [estimate_freed_mb]
  apply round1_mono
  have hsum : ((cs.map fun q => ((q.pss_kb : ℚ))).sum)
      ≤ (((cs ++ [p]).map fun q => ((q.pss_kb : ℚ))).sum) := by
    rw [List.map_append, List.sum_append]
    simp
  linarith

/-- C8: a refresh that fails with any Gateway or Parser error (any
exception caught by `_bg_fetch_live`'s `try/except`) leaves the cache
slot — triple and timestamp — exactly as it was, and a populated slot
can never revert to the empty state, whatever the fetch outcome. -/
theorem failed_refresh_preserves_cache (s : CacheState) (now : ℚ) (e : String)
    (f : Except String LiveTriple) (t : LiveTriple)
    (hpop : s._bg_live_data = some t) :
    _bg_fetch_live (Except.error e) s now = s
    ∧ (_bg_fetch_live f s now)._bg_live_data ≠ none := by
  refine ⟨rfl, ?_⟩
  cases f with
  | ok tr => simp [_bg_fetch_live]
  | error msg => simp [_bg_fetch_live, hpop]

def tripleW : LiveTriple :=
  ({ total_kb := 4194304, used_kb := 2097152, free_kb := 2097152 }, [],
    ([("model", "Pixel")] : List (String × String)))

def populatedW : CacheState :=
  { _bg_live_data := some tripleW, _bg_live_time := 10 }

/-- C8 (witness): a failing refresh (error `"adb timeout"`) at time 17
leaves the populated cache `populatedW` unchanged and non-empty. -/
theorem failed_refresh_preserves_cache_witness :
    _bg_fetch_live (Except.error ("adb timeout")) populatedW 17 = populatedW
    ∧ (_bg_fetch_live (Except.error ("adb timeout")) populatedW 17)._bg_live_data ≠ none :=
  failed_refresh_preserves_cache populatedW 17 ("adb timeout")
    (Except.error ("adb timeout")) tripleW rfl

/-- C9: `clear_live_cache` resets only the cached value's timestamp
(`_bg_live_time := 0.0`); the cached triple is left untouched, and for
any realistic epoch clock (`now > CACHE_TTL_SECONDS`) the next
`collect_live_data` call sees stale data — `need_fetch` holds — and,
with no worker already alive, starts a refresh attempt. -/
theorem clear_live_cache_frame (s : CacheState) (now : ℚ)
    (hnow : CACHE_TTL_SECONDS < now) :
    (clear_live_cache s)._bg_live_data = s._bg_live_data
    ∧ need_fetch (clear_live_cache s) now false = true
    ∧ starts_background_fetch (clear_live_cache s) now false false = true := by
  have hst : CACHE_TTL_SECONDS < now - (clear_live_cache s)._bg_live_time := by
    simp [clear_live_cache]
    linarith
  refine ⟨rfl, ?_, ?_⟩
  · simp [need_fetch, hst]
  · simp [starts_background_fetch, need_fetch, hst]

def populatedW9 : CacheState :=
  { _bg_live_data := some tripleW, _bg_live_time := 3 }

/-- C9 (witness): clearing the populated cache `populatedW9` keeps its
triple and makes a call at epoch time 30 start a refresh attempt. -/
theorem clear_live_cache_frame_witness :
    (clear_live_cache populatedW9)._bg_live_data = populatedW9._bg_live_data
    ∧ need_fetch (clear_live_cache populatedW9) 30 false = true
    ∧ starts_background_fetch (clear_live_cache populatedW9) 30 false false = true :=
  clear_live_cache_frame populatedW9 30 (by norm_num [CACHE_TTL_SECONDS])

/- ── Helper lemmas for the stable descending sort ─────────────────── -/

theorem pss_desc_trans (a b c : ProcessInfo) :
    pss_desc a b = true → pss_desc b c = true → pss_desc a c = true := by
  simp only [pss_desc, decide_eq_true_eq]
  omega

theorem pss_desc_total (a b : ProcessInfo) :
    (pss_desc a b || pss_desc b a) = true := by
  simp only [pss_desc, Bool.or_eq_true, decide_eq_true_eq]
  omega

theorem pairwise_filter_of {α : Type} (p : α → Bool) (R : α → α → Prop)
    (h : ∀ a b, p a = true → p b = true → R a b) (l : List α) :
    (l.filter p).Pairwise R := by
  induction l with
  | nil => simp
  | cons x xs ih =>
    rw [List.filter_cons]
    split_ifs with hx
    · rw [List.pairwise_cons]
      exact ⟨fun b hb => h x b hx (List.of_mem_filter hb), ih⟩
    · exact ih

/-- Stability of `List.mergeSort` in filter form: elements selected by a
predicate `p` that forces the sort comparison to hold between any two
selected elements (e.g. equality of the sort key) appear in the sorted
output exactly in their original order. -/
theorem filter_mergeSort_eq {α : Type} (le : α → α → Bool) (p : α → Bool)
    (htrans : ∀ a b c, le a b = true → le b c = true → le a c = true)
    (htotal : ∀ a b, (le a b || le b a) = true)
    (hp : ∀ a b, p a = true → p b = true → le a b = true)
    (l : List α) : (l.mergeSort le).filter p = l.filter p := by
  have hpair : (l.filter p).Pairwise (fun a b => le a b = true) :=
    pairwise_filter_of p _ (fun a b ha hb => hp a b ha hb) l
  have h1 : (l.filter p).Sublist (l.mergeSort le) :=
    List.sublist_mergeSort htrans htotal hpair (List.filter_sublist l)
  have h2 : ((l.filter p).filter p).Sublist ((l.mergeSort le).filter p) :=
    h1.filter p
  have hidem : (l.filter p).filter p = l.filter p := by
    rw [List.filter_filter]
    simp
  rw [hidem] at h2
  have h3 : ((l.mergeSort le).filter p).length = (l.filter p).length :=
    ((l.mergeSort_perm le).filter p).length_eq
  exact (h2.eq_of_length h3.symm).symm

/-- C1: `get_kill_candidates` returns a subset of its input in which
every element has `kill_score >= MIN_KILL_SCORE` and a package outside
`KILL_BLOCKLIST`; the output is sorted by `pss_kb` descending; and the
sort is stable — for every PSS value `k`, the elements of that size
appear in the same order as in the filtered input. -/
theorem get_kill_candidates_spec (processes : List ProcessInfo) (memory : MemoryInfo) :
    (∀ p ∈ get_kill_candidates processes memory,
        p ∈ processes ∧ MIN_KILL_SCORE ≤ p.kill_score
          ∧ p.package_name ∉ KILL_BLOCKLIST)
    ∧ (get_kill_candidates processes memory).Pairwise
        (fun a b => b.pss_kb ≤ a.pss_kb)
    ∧ ∀ k : ℕ,
        (get_kill_candidates processes memory).filter (fun p => p.pss_kb == k)
          = (processes.filter candidate_filter).filter (fun p => p.pss_kb == k) := by
  refine ⟨?_, ?_, ?_⟩
  · intro p hp
    unfold get_kill_candidates at hp
    rw [List.mem_mergeSort] at hp
    obtain ⟨hmem, hpred⟩ := List.mem_filter.mp hp
    simp only [candidate_filter, Bool.and_eq_true, decide_eq_true_eq,
      Bool.not_eq_true'] at hpred
    exact ⟨hmem, hpred.1, by simpa using hpred.2⟩
  · unfold get_kill_candidates
    have h := List.sorted_mergeSort pss_desc_trans pss_desc_total
      (processes.filter candidate_filter)
    exact h.imp (by intro a b hab; simpa [pss_desc] using hab)
  · intro k
    unfold get_kill_candidates
    refine filter_mergeSort_eq pss_desc _ pss_desc_trans pss_desc_total ?_ _
    intro a b ha hb
    have ha' : a.pss_kb = k := by simpa using ha
    have hb' : b.pss_kb = k := by simpa using hb
    simp [pss_desc, ha', hb']

def processW : ProcessInfo :=
  { pid := 7, package_name := "com.whatsapp", pss_kb := 180000,
    oom_adj := "bak", oom_label := "Background", kill_score := 4, user := "" }

def processListW : List ProcessInfo := [processW]

def memoryW : MemoryInfo := {}

/-- C1 (witness): the selection spec applied to a concrete one-process
list — the background WhatsApp process is a candidate, drawn from the
input, scoring at least `MIN_KILL_SCORE`, and not blocklisted. -/
theorem get_kill_candidates_spec_witness :
    processW ∈ processListW ∧ MIN_KILL_SCORE ≤ processW.kill_score
      ∧ processW.package_name ∉ KILL_BLOCKLIST :=
  (get_kill_candidates_spec processListW memoryW).1 processW (by
    unfold get_kill_candidates
    rw [List.mem_mergeSort]
    decide)

/-- C7: a package present in the size table (`pss_map`) but absent from
the priority table (`oom_map`) still appears in the merged inventory of
`get_running_processes`, carrying the configured background-level
default code `"bak"` with kill-score 4 — not a foreground code, not the
unknown-code default `OOM_DEFAULT_SCORE`, and strictly below the
maximal score in the `OOM_PRIORITY` table. -/
theorem merge_defaults_to_background (pss_map : List (String × ℕ × ℕ))
    (oom_map : List (String × String × ℕ × String)) (package : String)
    (pss_kb pid : ℕ) (hmem : (package, pss_kb, pid) ∈ pss_map)
    (habs : oom_map.lookup package = none) :
    ∃ r ∈ get_running_processes pss_map oom_map,
      r.package_name = package ∧ r.pss_kb = pss_kb ∧ r.oom_adj = "bak"
      ∧ r.kill_score = 4
      ∧ r.oom_adj ≠ "fore" ∧ r.oom_adj ≠ "fg"
      ∧ r.kill_score ≠ OOM_DEFAULT_SCORE
      ∧ ∃ entry ∈ OOM_PRIORITY, r.kill_score < entry.2.2 := by
  refine ⟨{ pid := pid, package_name := package, pss_kb := pss_kb,
            oom_adj := "bak", oom_label := "Background", kill_score := 4,
            user := "" }, ?_, rfl, rfl, rfl, rfl,
          show ("bak" : String) ≠ "fore" by decide,
          show ("bak" : String) ≠ "fg" by decide,
          show (4 : ℕ) ≠ OOM_DEFAULT_SCORE by decide,
          ⟨("cch", ("Cached", 5)), by decide, show (4 : ℕ) < 5 by decide⟩⟩
  unfold get_running_processes
  rw [List.mem_mergeSort]
  refine List.mem_map.mpr ⟨(package, pss_kb, pid), hmem, ?_⟩
  dsimp only
  rw [habs]
  rfl

def pssMapW : List (String × ℕ × ℕ) := [("com.example.game", (123456, 42))]

def oomMapW : List (String × String × ℕ × String) := []

/-- C7 (witness): with a size table containing only `com.example.game`
and an empty priority table, the merged inventory contains that package
with the `"bak"` default and kill-score 4. -/
theorem merge_defaults_to_background_witness :
    ∃ r ∈ get_running_processes pssMapW oomMapW,
      r.package_name = "com.example.game" ∧ r.pss_kb = 123456 ∧ r.oom_adj = "bak"
      ∧ r.kill_score = 4
      ∧ r.oom_adj ≠ "fore" ∧ r.oom_adj ≠ "fg"
      ∧ r.kill_score ≠ OOM_DEFAULT_SCORE
      ∧ ∃ entry ∈ OOM_PRIORITY, r.kill_score < entry.2.2 :=
  merge_defaults_to_background pssMapW oomMapW ("com.example.game") 123456 42
    (by decide) rfl

/-- C10: in the Python-object heap model, `get_kill_candidates` leaves
its input list object untouched (same elements, same order), returns the
address of a freshly allocated list (never the input's address), and the
value at that fresh address is exactly the pure `get_kill_candidates`
result. -/
theorem get_kill_candidates_no_mutation (heap : List (List ProcessInfo)) (a : ℕ)
    (memory : MemoryInfo) (ha : a < heap.length) :
    (get_kill_candidates_heap heap a memory).1.getD a [] = heap.getD a []
    ∧ (get_kill_candidates_heap heap a memory).2 ≠ a
    ∧ (get_kill_candidates_heap heap a memory).1.getD
        (get_kill_candidates_heap heap a memory).2 []
      = get_kill_candidates (heap.getD a []) memory := by
  simp only [get_kill_candidates_heap]
  refine ⟨?_, ?_, ?_⟩
  · rw [List.getD_eq_getElem?_getD, List.getD_eq_getElem?_getD]
    rw [List.getElem?_set_ne (by simp; omega)]
    rw [List.getElem?_append, if_pos ha]
  · simp
    omega
  · rw [List.getD_eq_getElem?_getD]
    rw [List.getElem?_set_self (by simp)]
    rfl

def heapW : List (List ProcessInfo) :=
  [[{ pid := 3, package_name := "com.spotify.music", pss_kb := 120000,
      oom_adj := "cch", oom_label := "Cached", kill_score := 5, user := "" }]]

/-- C10 (witness): the frame theorem applied to a heap holding one
single-process input list at address 0. -/
theorem get_kill_candidates_no_mutation_witness :
    (get_kill_candidates_heap heapW 0 memoryW).1.getD 0 [] = heapW.getD 0 []
    ∧ (get_kill_candidates_heap heapW 0 memoryW).2 ≠ 0
    ∧ (get_kill_candidates_heap heapW 0 memoryW).1.getD
        (get_kill_candidates_heap heapW 0 memoryW).2 []
      = get_kill_candidates (heapW.getD 0 []) memoryW :=
  get_kill_candidates_no_mutation heapW 0 memoryW (by decide)
